import Mathlib

/-!
Shallow embedding of the etcd startup/recovery orchestrator (src/main.go).

The orchestrator's external collaborators (the durable log `wal`, the
snapshot store `snap`, the discovery service, the raft engine, the
transport/listener builder) live outside src/ and are treated as oracles:
an `Env` records the outcome each collaborator call would produce, and the
orchestrator is embedded as a function from the configuration and the
environment to the sequence of externally visible actions (the trace) plus
either a fatal error (`Except.error`, the model of `log.Fatal`) or normal
completion.
-/

/-- Modelled from the spec: a cluster member carries a name, a numeric ID and
a peer URL (the `etcdserver.Member` type is outside src/). -/
structure Member where
  name : String
  id : Nat
  peerURL : String
  deriving DecidableEq, Repr

/-- Modelled from the spec: the Cluster Descriptor, a set of members
(`etcdserver.Cluster` is outside src/). -/
structure Cluster where
  members : List Member
  deriving DecidableEq, Repr

/-- Modelled from the spec: locate the member whose name matches
(`etcdserver.Cluster.FindName` is outside src/; the spec contract is
"given a configured set of members and a node name, locate the member whose
name matches"). -/
def Cluster.FindName (c : Cluster) (n : String) : Option Member :=
  c.members.find? (fun m => m.name == n)

/-- Modelled from the spec: the full set of member IDs of a cluster
(`etcdserver.Cluster.IDs` is outside src/). -/
def Cluster.IDs (c : Cluster) : List Nat :=
  c.members.map (fun m => m.id)

/-- Modelled from the spec: the null-sentinel member ID (`raft.None`,
outside src/; the spec calls it "a non-null sentinel value"). -/
def raftNone : Nat := 0

/-- Hard state replayed from the WAL (term, vote, commit), opaque to the
orchestrator and passed through to `raft.RestartNode`. -/
structure HardState where
  term : Nat
  vote : Nat
  commit : Nat
  deriving DecidableEq, Repr

/-- A WAL log entry; only its index matters to the orchestrator's contract. -/
structure Entry where
  index : Int
  data : Nat
  deriving DecidableEq, Repr

/-- A snapshot: its log index and the opaque store payload. -/
structure Snapshot where
  index : Int
  data : List Nat
  deriving DecidableEq, Repr

/-- Outcome tag of `snapshotter.Load`: the distinguished `snap.ErrNoSnapshot`
versus any other load error. -/
inductive SnapErr where
  | noSnapshot : SnapErr
  | other : String → SnapErr
  deriving DecidableEq, Repr

/-- Proxy-mode flag values (`flagtypes.Proxy`): `off` runs `startEtcd`, the
other two run `startProxy`, with `readonly` adding the read-only wrapper. -/
inductive ProxyMode where
  | off : ProxyMode
  | full : ProxyMode
  | readonly : ProxyMode
  deriving DecidableEq, Repr

/-- The externally visible actions of the orchestrator, in program order. -/
inductive Event where
  | mkdir : String → Event
  | walExistCheck : String → Event
  | discoveryNew : String → Nat → String → Event
  | discover : Event
  | walCreate : String → Event
  | raftStart : Nat → List Nat → Nat → Nat → Event
  | snapLoad : Event
  | storeRecover : List Nat → Bool → Event
  | walOpen : String → Int → Event
  | walReadAll : Event
  | raftRestart : Nat → List Nat → Nat → Nat →
      Option Snapshot → HardState → List Entry → Event
  | newTransport : Event
  | serverStart : Event
  | proxyHandler : Event
  | readonlyWrap : Event
  | newListener : String → Event
  | goServe : String → Event
  deriving DecidableEq, Repr

/-- Process configuration: the flag values `startEtcd`/`startProxy` read. -/
structure Config where
  name : String
  dir : String
  durl : String
  purls : String
  snapCount : Int
  cluster : Cluster
  paddr : String
  addrs : List String
  proxyMode : ProxyMode
  deriving DecidableEq, Repr

/-- Oracle for the external collaborators: the outcome each call would
produce in this run. -/
structure Env where
  mkdirOk : String → Bool
  walExist : Bool
  discoveryNewOk : Bool
  discoverResult : Except String Cluster
  walCreateOk : Bool
  snapLoadResult : Option Snapshot × Option SnapErr
  storeRecoverOk : List Nat → Bool
  walOpenOk : Int → Bool
  walReadResult : Int → Except String (Nat × HardState × List Entry)
  transportOk : Bool
  proxyHandlerOk : Bool
  peerListenerOk : Bool
  clientListenerOk : String → Bool

/-- Go's `path.Join` restricted to the clean, relative components used here. -/
def pathJoin (a b : String) : String := a ++ "/" ++ b

/-- The effective data directory (`main.go` lines 128-131): an empty
`data-dir` flag defaults to `<self.ID>_etcd_data`. -/
def dataDir (cfg : Config) (self : Member) : String :=
  if cfg.dir = "" then Nat.repr self.id ++ "_etcd_data" else cfg.dir

/-- The discovery step of the fresh-start path (`main.go` lines 148-161):
with no discovery URL the configured cluster is kept; otherwise the
advertised peer URLs must be set, `discovery.New` and `d.Discover` run, and
the returned cluster replaces the configured one. -/
def discoveryPhase (cfg : Config) (env : Env) (self : Member) :
    List Event × Except String Cluster :=
  if cfg.durl = "" then ([], Except.ok cfg.cluster)
  else if cfg.purls = "" then
    ([], Except.error "etcd: discovery requires advertised-peer-urls")
  else
    let ev1 := Event.discoveryNew cfg.durl self.id (cfg.name ++ "=" ++ cfg.purls)
    if env.discoveryNewOk = false then
      ([ev1], Except.error "etcd: cannot init discovery")
    else
      match env.discoverResult with
      | Except.error m => ([ev1, Event.discover], Except.error m)
      | Except.ok cl => ([ev1, Event.discover], Except.ok cl)

/-- The fresh-start path (`main.go` lines 147-166): optional discovery, then
`wal.Create`, then `raft.StartNode(self.ID, cluster.IDs(), 10, 1)` with the
possibly discovery-replaced cluster. -/
def freshInit (cfg : Config) (env : Env) (self : Member) (waldir : String) :
    List Event × Except String Cluster :=
  match (discoveryPhase cfg env self).2 with
  | Except.error m => ((discoveryPhase cfg env self).1, Except.error m)
  | Except.ok cl =>
    if env.walCreateOk = false then
      ((discoveryPhase cfg env self).1 ++ [Event.walCreate waldir],
       Except.error "wal: create failed")
    else
      ((discoveryPhase cfg env self).1 ++ [Event.walCreate waldir,
        Event.raftStart self.id (Cluster.IDs cl) 10 1], Except.ok cl)

/-- Opening and replaying the WAL on the recovery path (`main.go` lines
179-191): `wal.OpenAtIndex(waldir, index)`, `w.ReadAll()`, the zero-node-id
invariant, then `raft.RestartNode` with the locally configured cluster. -/
def walReplay (cfg : Config) (env : Env) (self : Member) (waldir : String)
    (index : Int) (snapOpt : Option Snapshot) :
    List Event × Except String Cluster :=
  if env.walOpenOk index = false then
    ([Event.walOpen waldir index], Except.error "wal: open at index failed")
  else
    match env.walReadResult index with
    | Except.error m =>
      ([Event.walOpen waldir index, Event.walReadAll], Except.error m)
    | Except.ok (wid, hs, ents) =>
      if wid ≠ 0 then
        ([Event.walOpen waldir index, Event.walReadAll],
         Except.error "unexpected nodeid: nodeid should always be zero")
      else
        ([Event.walOpen waldir index, Event.walReadAll,
          Event.raftRestart self.id (Cluster.IDs cfg.cluster) 10 1 snapOpt hs ents],
         Except.ok cfg.cluster)

/-- The recovery path (`main.go` lines 167-191): `snapshotter.Load()` where
only an error other than `ErrNoSnapshot` is fatal; a loaded snapshot has its
payload handed to `st.Recovery` (result discarded) and sets the start index;
then the WAL is opened and replayed. -/
def recoverInit (cfg : Config) (env : Env) (self : Member) (waldir : String) :
    List Event × Except String Cluster :=
  match env.snapLoadResult.2 with
  | some (SnapErr.other m) => ([Event.snapLoad], Except.error m)
  | _ =>
    match env.snapLoadResult.1 with
    | some s =>
      (Event.snapLoad :: Event.storeRecover s.data (env.storeRecoverOk s.data)
        :: (walReplay cfg env self waldir s.index (some s)).1,
       (walReplay cfg env self waldir s.index (some s)).2)
    | none =>
      (Event.snapLoad :: (walReplay cfg env self waldir 0 none).1,
       (walReplay cfg env self waldir 0 none).2)

/-- `startEtcd` up to the raft-node initialization (`main.go` lines 114-192):
member resolution, identity and snapshot-count validation, directory
creation, the WAL-existence branch, and one of the two init paths. Returns
the resolved self member and the cluster in effect after the branch. -/
def initNode (cfg : Config) (env : Env) :
    List Event × Except String (Member × Cluster) :=
  match Cluster.FindName cfg.cluster cfg.name with
  | none => ([], Except.error "etcd: no member with name exists")
  | some self =>
    if self.id = raftNone then
      ([], Except.error "etcd: cannot use None as member id")
    else if cfg.snapCount ≤ 0 then
      ([], Except.error "etcd: snapshot-count must be greater than 0")
    else
      let d := dataDir cfg self
      if env.mkdirOk d = false then
        ([Event.mkdir d], Except.error "main: cannot create data directory")
      else
        let snapdir := pathJoin d "snap"
        if env.mkdirOk snapdir = false then
          ([Event.mkdir d, Event.mkdir snapdir],
           Except.error "etcd: cannot create snapshot directory")
        else
          let waldir := pathJoin d "wal"
          let ev0 := [Event.mkdir d, Event.mkdir snapdir,
            Event.walExistCheck waldir]
          if env.walExist = false then
            (ev0 ++ (freshInit cfg env self waldir).1,
             (freshInit cfg env self waldir).2.map (fun cl => (self, cl)))
          else
            (ev0 ++ (recoverInit cfg env self waldir).1,
             (recoverInit cfg env self waldir).2.map (fun cl => (self, cl)))

/-- The client-endpoint serving loop (`main.go` lines 234-245): one listener
and one serving goroutine per bind address, fatal on a listener failure. -/
def serveClients (env : Env) (addrs : List String) :
    List Event × Except String Unit :=
  match addrs with
  | [] => ([], Except.ok ())
  | a :: rest =>
    if env.clientListenerOk a = false then
      ([Event.newListener a], Except.error "transport: client listener failed")
    else
      (Event.newListener a :: Event.goServe a :: (serveClients env rest).1,
       (serveClients env rest).2)

/-- The service-composition tail of `startEtcd` (`main.go` lines 194-245):
peer transport, server start, the peer listener and serving goroutine, then
one client listener and goroutine per bind address. -/
def composeServe (cfg : Config) (env : Env) : List Event × Except String Unit :=
  if env.transportOk = false then
    ([Event.newTransport], Except.error "transport: new transport failed")
  else
    if env.peerListenerOk = false then
      ([Event.newTransport, Event.serverStart, Event.newListener cfg.paddr],
       Except.error "transport: peer listener failed")
    else
      (Event.newTransport :: Event.serverStart :: Event.newListener cfg.paddr
        :: Event.goServe cfg.paddr :: (serveClients env cfg.addrs).1,
       (serveClients env cfg.addrs).2)

/-- `startEtcd` (`main.go` lines 114-246): the bootstrap/recovery decision
and raft initialization followed by service composition. -/
def startEtcd (cfg : Config) (env : Env) : List Event × Except String Unit :=
  match (initNode cfg env).2 with
  | Except.error m => ((initNode cfg env).1, Except.error m)
  | Except.ok _ =>
    ((initNode cfg env).1 ++ (composeServe cfg env).1, (composeServe cfg env).2)

/-- `startProxy` (`main.go` lines 249-282): client transport, the forwarding
handler (read-only wrapped when configured), one listener and goroutine per
bind address. -/
def startProxy (cfg : Config) (env : Env) : List Event × Except String Unit :=
  if env.transportOk = false then
    ([Event.newTransport], Except.error "transport: new transport failed")
  else if env.proxyHandlerOk = false then
    ([Event.newTransport, Event.proxyHandler],
     Except.error "proxy: new handler failed")
  else
    let hevs := if cfg.proxyMode = ProxyMode.readonly then
      [Event.newTransport, Event.proxyHandler, Event.readonlyWrap]
    else [Event.newTransport, Event.proxyHandler]
    (hevs ++ (serveClients env cfg.addrs).1, (serveClients env cfg.addrs).2)

/-- Outcome of `main`: a `log.Fatal` exit, or blocking forever on the
receive from an empty channel (`main.go` line 110). -/
inductive MainOutcome where
  | fatal : String → MainOutcome
  | blockedForever : MainOutcome
  deriving DecidableEq, Repr

/-- `main` (`main.go` lines 92-111), here `mainRun` since Lean reserves the name `main`, after flag parsing: run `startEtcd` when
the proxy flag is off, else `startProxy`, then block indefinitely. -/
def mainRun (cfg : Config) (env : Env) : List Event × MainOutcome :=
  if cfg.proxyMode = ProxyMode.off then
    ((startEtcd cfg env).1,
     match (startEtcd cfg env).2 with
     | Except.error m => MainOutcome.fatal m
     | Except.ok _ => MainOutcome.blockedForever)
  else
    ((startProxy cfg env).1,
     match (startProxy cfg env).2 with
     | Except.error m => MainOutcome.fatal m
     | Except.ok _ => MainOutcome.blockedForever)

/-- Classifier: events of the discovery collaborator. -/
def Event.isDiscoveryEvent : Event → Bool
  | Event.discoveryNew _ _ _ => true
  | Event.discover => true
  | _ => false

/-- Classifier: the `raft.StartNode` invocation. -/
def Event.isRaftStartEvent : Event → Bool
  | Event.raftStart _ _ _ _ => true
  | _ => false

/-- Classifier: the `raft.RestartNode` invocation. -/
def Event.isRaftRestartEvent : Event → Bool
  | Event.raftRestart _ _ _ _ _ _ _ => true
  | _ => false

/-- Classifier: either consensus-engine initialization. -/
def Event.isRaftInitEvent (e : Event) : Bool :=
  e.isRaftStartEvent || e.isRaftRestartEvent

/-- Classifier: the snapshot-load call. -/
def Event.isSnapLoadEvent : Event → Bool
  | Event.snapLoad => true
  | _ => false

/-- Classifier: the store-restore call. -/
def Event.isStoreRecoverEvent : Event → Bool
  | Event.storeRecover _ _ => true
  | _ => false

/-- Classifier: the `wal.OpenAtIndex` call. -/
def Event.isWalOpenEvent : Event → Bool
  | Event.walOpen _ _ => true
  | _ => false

/-- Classifier: the `wal.Create` call. -/
def Event.isWalCreateEvent : Event → Bool
  | Event.walCreate _ => true
  | _ => false

/-- Classifier: network-endpoint events (listener binding and serving). -/
def Event.isServeEvent : Event → Bool
  | Event.newListener _ => true
  | Event.goServe _ => true
  | _ => false

/-- Classifier: events of the fresh-start path. -/
def Event.isFreshPathEvent : Event → Bool
  | Event.discoveryNew _ _ _ => true
  | Event.discover => true
  | Event.walCreate _ => true
  | Event.raftStart _ _ _ _ => true
  | _ => false

/-- Classifier: events of the WAL replay step. -/
def Event.isReplayEvent : Event → Bool
  | Event.walOpen _ _ => true
  | Event.walReadAll => true
  | Event.raftRestart _ _ _ _ _ _ _ => true
  | _ => false

/-- Classifier: events of the recovery path. -/
def Event.isRecoveryPathEvent : Event → Bool
  | Event.snapLoad => true
  | Event.storeRecover _ _ => true
  | Event.walOpen _ _ => true
  | Event.walReadAll => true
  | Event.raftRestart _ _ _ _ _ _ _ => true
  | _ => false

/-- Classifier: the directory-setup events preceding the branch. -/
def Event.isSetupEvent : Event → Bool
  | Event.mkdir _ => true
  | Event.walExistCheck _ => true
  | _ => false

/-- Classifier: events of the service-composition tail. -/
def Event.isComposeEvent : Event → Bool
  | Event.newTransport => true
  | Event.serverStart => true
  | Event.newListener _ => true
  | Event.goServe _ => true
  | _ => false

theorem discoveryPhase_events (cfg : Config) (env : Env) (self : Member) :
    ∀ e ∈ (discoveryPhase cfg env self).1, e.isDiscoveryEvent = true := by
  intro e he
  unfold discoveryPhase at he
  split at he
  · simp at he
  · split at he
    · simp at he
    · split at he
      · simp only [List.mem_singleton] at he
        subst he; rfl
      · split at he <;>
          simp only [List.mem_cons, List.not_mem_nil, or_false] at he <;>
          rcases he with rfl | rfl <;> rfl

theorem freshInit_events (cfg : Config) (env : Env) (self : Member)
    (w : String) :
    ∀ e ∈ (freshInit cfg env self w).1, e.isFreshPathEvent = true := by
  intro e he
  have hd := discoveryPhase_events cfg env self
  unfold freshInit at he
  split at he
  · have := hd e he
    revert this; cases e <;> simp [Event.isDiscoveryEvent, Event.isFreshPathEvent]
  · split at he <;>
      simp only [List.mem_append, List.mem_cons, List.not_mem_nil, or_false] at he
    · rcases he with he | rfl
      · have := hd e he
        revert this; cases e <;>
          simp [Event.isDiscoveryEvent, Event.isFreshPathEvent]
      · rfl
    · rcases he with he | rfl | rfl
      · have := hd e he
        revert this; cases e <;>
          simp [Event.isDiscoveryEvent, Event.isFreshPathEvent]
      · rfl
      · rfl

theorem walReplay_events (cfg : Config) (env : Env) (self : Member)
    (w : String) (i : Int) (so : Option Snapshot) :
    ∀ e ∈ (walReplay cfg env self w i so).1, e.isReplayEvent = true := by
  intro e he
  unfold walReplay at he
  split at he
  · simp only [List.mem_singleton] at he; subst he; rfl
  · split at he
    · simp only [List.mem_cons, List.not_mem_nil, or_false] at he
      rcases he with rfl | rfl <;> rfl
    · split at he <;>
        simp only [List.mem_cons, List.not_mem_nil, or_false] at he
      · rcases he with rfl | rfl <;> rfl
      · rcases he with rfl | rfl | rfl <;> rfl

theorem recoverInit_events (cfg : Config) (env : Env) (self : Member)
    (w : String) :
    ∀ e ∈ (recoverInit cfg env self w).1, e.isRecoveryPathEvent = true := by
  intro e he
  unfold recoverInit at he
  split at he
  · simp only [List.mem_singleton] at he; subst he; rfl
  · split at he <;> simp only [List.mem_cons] at he
    · rcases he with rfl | rfl | he
      · rfl
      · rfl
      · have := walReplay_events cfg env self w _ _ e he
        revert this; cases e <;>
          simp [Event.isReplayEvent, Event.isRecoveryPathEvent]
    · rcases he with rfl | he
      · rfl
      · have := walReplay_events cfg env self w _ _ e he
        revert this; cases e <;>
          simp [Event.isReplayEvent, Event.isRecoveryPathEvent]

theorem serveClients_events (env : Env) (as : List String) :
    ∀ e ∈ (serveClients env as).1, e.isComposeEvent = true := by
  induction as with
  | nil => intro e he; simp [serveClients] at he
  | cons a rest ih =>
    intro e he
    unfold serveClients at he
    split at he
    · simp only [List.mem_singleton] at he; subst he; rfl
    · simp only [List.mem_cons] at he
      rcases he with rfl | rfl | he
      · rfl
      · rfl
      · exact ih e he

theorem composeServe_events (cfg : Config) (env : Env) :
    ∀ e ∈ (composeServe cfg env).1, e.isComposeEvent = true := by
  intro e he
  unfold composeServe at he
  split at he
  · simp only [List.mem_singleton] at he; subst he; rfl
  · split at he <;> simp only [List.mem_cons, List.not_mem_nil, or_false] at he
    · rcases he with rfl | rfl | rfl <;> rfl
    · rcases he with rfl | rfl | rfl | rfl | he
      · rfl
      · rfl
      · rfl
      · rfl
      · exact serveClients_events env cfg.addrs e he

theorem countP_eq_zero_of_all {p : Event → Bool} {l : List Event}
    (h : ∀ e ∈ l, p e = false) : l.countP p = 0 := by
  rw [List.countP_eq_zero]
  intro a ha
  simp [h a ha]

theorem discoveryEvent_not_raftInit {e : Event}
    (h : e.isDiscoveryEvent = true) : e.isRaftInitEvent = false := by
  cases e <;> simp_all [Event.isDiscoveryEvent, Event.isRaftInitEvent,
    Event.isRaftStartEvent, Event.isRaftRestartEvent]

theorem composeEvent_not_raftInit {e : Event}
    (h : e.isComposeEvent = true) : e.isRaftInitEvent = false := by
  cases e <;> simp_all [Event.isComposeEvent, Event.isRaftInitEvent,
    Event.isRaftStartEvent, Event.isRaftRestartEvent]

theorem setupEvent_not_raftInit {e : Event}
    (h : e.isSetupEvent = true) : e.isRaftInitEvent = false := by
  cases e <;> simp_all [Event.isSetupEvent, Event.isRaftInitEvent,
    Event.isRaftStartEvent, Event.isRaftRestartEvent]

theorem composeServe_raftInit_count (cfg : Config) (env : Env) :
    (composeServe cfg env).1.countP Event.isRaftInitEvent = 0 :=
  countP_eq_zero_of_all (fun e he =>
    composeEvent_not_raftInit (composeServe_events cfg env e he))

theorem discoveryPhase_raftInit_count (cfg : Config) (env : Env)
    (self : Member) :
    (discoveryPhase cfg env self).1.countP Event.isRaftInitEvent = 0 :=
  countP_eq_zero_of_all (fun e he =>
    discoveryEvent_not_raftInit (discoveryPhase_events cfg env self e he))

theorem freshInit_raftInit_count_ok (cfg : Config) (env : Env) (self : Member)
    (w : String) (cl : Cluster)
    (h : (freshInit cfg env self w).2 = Except.ok cl) :
    (freshInit cfg env self w).1.countP Event.isRaftInitEvent = 1 := by
  have hd := discoveryPhase_raftInit_count cfg env self
  rcases hdp : (discoveryPhase cfg env self).2 with m | c <;>
    simp only [freshInit, hdp] at h ⊢
  · exact absurd h (by simp)
  · rcases hw : env.walCreateOk <;> simp only [hw] at h ⊢
    · exact absurd h (by simp)
    · simp [List.countP_append, List.countP_cons, hd, Event.isRaftInitEvent,
        Event.isRaftStartEvent, Event.isRaftRestartEvent]

theorem freshInit_raftInit_count_err (cfg : Config) (env : Env) (self : Member)
    (w : String) (m : String)
    (h : (freshInit cfg env self w).2 = Except.error m) :
    (freshInit cfg env self w).1.countP Event.isRaftInitEvent = 0 := by
  have hd := discoveryPhase_raftInit_count cfg env self
  rcases hdp : (discoveryPhase cfg env self).2 with m' | c <;>
    simp only [freshInit, hdp] at h ⊢
  · exact hd
  · rcases hw : env.walCreateOk <;> simp only [hw] at h ⊢
    · simp [List.countP_append, List.countP_cons, hd, Event.isRaftInitEvent,
        Event.isRaftStartEvent, Event.isRaftRestartEvent]
    · exact absurd h (by simp)

theorem walReplay_raftInit_count_ok (cfg : Config) (env : Env) (self : Member)
    (w : String) (i : Int) (so : Option Snapshot) (cl : Cluster)
    (h : (walReplay cfg env self w i so).2 = Except.ok cl) :
    (walReplay cfg env self w i so).1.countP Event.isRaftInitEvent = 1 := by
  rcases ho : env.walOpenOk i
  · simp [walReplay, ho] at h
  · rcases hr : env.walReadResult i with m | ⟨wid, hs, ents⟩
    · simp [walReplay, ho, hr] at h
    · by_cases hwid : wid = 0
      · simp [walReplay, ho, hr, hwid, List.countP_cons, Event.isRaftInitEvent,
          Event.isRaftStartEvent, Event.isRaftRestartEvent]
      · simp [walReplay, ho, hr, hwid] at h

theorem walReplay_raftInit_count_err (cfg : Config) (env : Env) (self : Member)
    (w : String) (i : Int) (so : Option Snapshot) (m : String)
    (h : (walReplay cfg env self w i so).2 = Except.error m) :
    (walReplay cfg env self w i so).1.countP Event.isRaftInitEvent = 0 := by
  rcases ho : env.walOpenOk i
  · simp [walReplay, ho, List.countP_cons, Event.isRaftInitEvent,
      Event.isRaftStartEvent, Event.isRaftRestartEvent]
  · rcases hr : env.walReadResult i with m2 | ⟨wid, hs, ents⟩
    · simp [walReplay, ho, hr, List.countP_cons, Event.isRaftInitEvent,
        Event.isRaftStartEvent, Event.isRaftRestartEvent]
    · by_cases hwid : wid = 0
      · simp [walReplay, ho, hr, hwid] at h
      · simp [walReplay, ho, hr, hwid, List.countP_cons, Event.isRaftInitEvent,
          Event.isRaftStartEvent, Event.isRaftRestartEvent]

theorem recoverInit_raftInit_count_ok (cfg : Config) (env : Env)
    (self : Member) (w : String) (cl : Cluster)
    (h : (recoverInit cfg env self w).2 = Except.ok cl) :
    (recoverInit cfg env self w).1.countP Event.isRaftInitEvent = 1 := by
  rcases hs2 : env.snapLoadResult.2 with _ | se
  · rcases hs1 : env.snapLoadResult.1 with _ | s
    · simp only [recoverInit, hs2, hs1] at h ⊢
      rw [List.countP_cons, walReplay_raftInit_count_ok cfg env self w 0 none cl h]
      simp [Event.isRaftInitEvent, Event.isRaftStartEvent, Event.isRaftRestartEvent]
    · simp only [recoverInit, hs2, hs1] at h ⊢
      rw [List.countP_cons, List.countP_cons,
        walReplay_raftInit_count_ok cfg env self w s.index (some s) cl h]
      simp [Event.isRaftInitEvent, Event.isRaftStartEvent, Event.isRaftRestartEvent]
  · rcases se with _ | m
    · rcases hs1 : env.snapLoadResult.1 with _ | s
      · simp only [recoverInit, hs2, hs1] at h ⊢
        rw [List.countP_cons, walReplay_raftInit_count_ok cfg env self w 0 none cl h]
        simp [Event.isRaftInitEvent, Event.isRaftStartEvent, Event.isRaftRestartEvent]
      · simp only [recoverInit, hs2, hs1] at h ⊢
        rw [List.countP_cons, List.countP_cons,
          walReplay_raftInit_count_ok cfg env self w s.index (some s) cl h]
        simp [Event.isRaftInitEvent, Event.isRaftStartEvent, Event.isRaftRestartEvent]
    · simp [recoverInit, hs2] at h

theorem recoverInit_raftInit_count_err (cfg : Config) (env : Env)
    (self : Member) (w : String) (m : String)
    (h : (recoverInit cfg env self w).2 = Except.error m) :
    (recoverInit cfg env self w).1.countP Event.isRaftInitEvent = 0 := by
  rcases hs2 : env.snapLoadResult.2 with _ | se
  · rcases hs1 : env.snapLoadResult.1 with _ | s
    · simp only [recoverInit, hs2, hs1] at h ⊢
      rw [List.countP_cons, walReplay_raftInit_count_err cfg env self w 0 none m h]
      simp [Event.isRaftInitEvent, Event.isRaftStartEvent, Event.isRaftRestartEvent]
    · simp only [recoverInit, hs2, hs1] at h ⊢
      rw [List.countP_cons, List.countP_cons,
        walReplay_raftInit_count_err cfg env self w s.index (some s) m h]
      simp [Event.isRaftInitEvent, Event.isRaftStartEvent, Event.isRaftRestartEvent]
  · rcases se with _ | m2
    · rcases hs1 : env.snapLoadResult.1 with _ | s
      · simp only [recoverInit, hs2, hs1] at h ⊢
        rw [List.countP_cons, walReplay_raftInit_count_err cfg env self w 0 none m h]
        simp [Event.isRaftInitEvent, Event.isRaftStartEvent, Event.isRaftRestartEvent]
      · simp only [recoverInit, hs2, hs1] at h ⊢
        rw [List.countP_cons, List.countP_cons,
          walReplay_raftInit_count_err cfg env self w s.index (some s) m h]
        simp [Event.isRaftInitEvent, Event.isRaftStartEvent, Event.isRaftRestartEvent]
    · simp [recoverInit, hs2, List.countP_cons, Event.isRaftInitEvent,
        Event.isRaftStartEvent, Event.isRaftRestartEvent]

theorem initNode_noname (cfg : Config) (env : Env)
    (hf : Cluster.FindName cfg.cluster cfg.name = none) :
    initNode cfg env = ([], Except.error "etcd: no member with name exists") := by
  simp [initNode, hf]

theorem initNode_idNone (cfg : Config) (env : Env) (self : Member)
    (hf : Cluster.FindName cfg.cluster cfg.name = some self)
    (hid : self.id = raftNone) :
    initNode cfg env = ([], Except.error "etcd: cannot use None as member id") := by
  simp [initNode, hf, hid]

theorem initNode_snapCount (cfg : Config) (env : Env) (self : Member)
    (hf : Cluster.FindName cfg.cluster cfg.name = some self)
    (hid : ¬self.id = raftNone) (hsc : cfg.snapCount ≤ 0) :
    initNode cfg env =
      ([], Except.error "etcd: snapshot-count must be greater than 0") := by
  simp [initNode, hf, hid, hsc]

theorem initNode_mkdirFail1 (cfg : Config) (env : Env) (self : Member)
    (hf : Cluster.FindName cfg.cluster cfg.name = some self)
    (hid : ¬self.id = raftNone) (hsc : ¬cfg.snapCount ≤ 0)
    (hm1 : env.mkdirOk (dataDir cfg self) = false) :
    initNode cfg env = ([Event.mkdir (dataDir cfg self)],
      Except.error "main: cannot create data directory") := by
  simp [initNode, hf, hid, hsc, hm1]

theorem initNode_mkdirFail2 (cfg : Config) (env : Env) (self : Member)
    (hf : Cluster.FindName cfg.cluster cfg.name = some self)
    (hid : ¬self.id = raftNone) (hsc : ¬cfg.snapCount ≤ 0)
    (hm1 : env.mkdirOk (dataDir cfg self) = true)
    (hm2 : env.mkdirOk (pathJoin (dataDir cfg self) "snap") = false) :
    initNode cfg env = ([Event.mkdir (dataDir cfg self),
      Event.mkdir (pathJoin (dataDir cfg self) "snap")],
      Except.error "etcd: cannot create snapshot directory") := by
  simp [initNode, hf, hid, hsc, hm1, hm2]

theorem initNode_fresh (cfg : Config) (env : Env) (self : Member)
    (hf : Cluster.FindName cfg.cluster cfg.name = some self)
    (hid : ¬self.id = raftNone) (hsc : ¬cfg.snapCount ≤ 0)
    (hm1 : env.mkdirOk (dataDir cfg self) = true)
    (hm2 : env.mkdirOk (pathJoin (dataDir cfg self) "snap") = true)
    (hw : env.walExist = false) :
    initNode cfg env =
      ([Event.mkdir (dataDir cfg self),
        Event.mkdir (pathJoin (dataDir cfg self) "snap"),
        Event.walExistCheck (pathJoin (dataDir cfg self) "wal")] ++
          (freshInit cfg env self (pathJoin (dataDir cfg self) "wal")).1,
       (freshInit cfg env self (pathJoin (dataDir cfg self) "wal")).2.map
         (fun cl => (self, cl))) := by
  simp [initNode, hf, hid, hsc, hm1, hm2, hw]

theorem initNode_recovery (cfg : Config) (env : Env) (self : Member)
    (hf : Cluster.FindName cfg.cluster cfg.name = some self)
    (hid : ¬self.id = raftNone) (hsc : ¬cfg.snapCount ≤ 0)
    (hm1 : env.mkdirOk (dataDir cfg self) = true)
    (hm2 : env.mkdirOk (pathJoin (dataDir cfg self) "snap") = true)
    (hw : env.walExist = true) :
    initNode cfg env =
      ([Event.mkdir (dataDir cfg self),
        Event.mkdir (pathJoin (dataDir cfg self) "snap"),
        Event.walExistCheck (pathJoin (dataDir cfg self) "wal")] ++
          (recoverInit cfg env self (pathJoin (dataDir cfg self) "wal")).1,
       (recoverInit cfg env self (pathJoin (dataDir cfg self) "wal")).2.map
         (fun cl => (self, cl))) := by
  simp [initNode, hf, hid, hsc, hm1, hm2, hw]

theorem initNode_mem (cfg : Config) (env : Env) :
    ∀ e ∈ (initNode cfg env).1, e.isSetupEvent = true ∨
      (env.walExist = false ∧ e.isFreshPathEvent = true) ∨
      (env.walExist = true ∧ e.isRecoveryPathEvent = true) := by
  intro e he
  rcases hf : Cluster.FindName cfg.cluster cfg.name with _ | self
  · rw [initNode_noname cfg env hf] at he; simp at he
  · by_cases hid : self.id = raftNone
    · rw [initNode_idNone cfg env self hf hid] at he; simp at he
    · by_cases hsc : cfg.snapCount ≤ 0
      · rw [initNode_snapCount cfg env self hf hid hsc] at he; simp at he
      · rcases hm1 : env.mkdirOk (dataDir cfg self)
        · rw [initNode_mkdirFail1 cfg env self hf hid hsc hm1] at he
          simp only [List.mem_singleton] at he; subst he; exact Or.inl rfl
        · rcases hm2 : env.mkdirOk (pathJoin (dataDir cfg self) "snap")
          · rw [initNode_mkdirFail2 cfg env self hf hid hsc hm1 hm2] at he
            simp only [List.mem_cons, List.not_mem_nil, or_false] at he
            rcases he with rfl | rfl <;> exact Or.inl rfl
          · rcases hw : env.walExist
            · rw [initNode_fresh cfg env self hf hid hsc hm1 hm2 hw] at he
              rcases List.mem_append.mp he with h | h
              · simp only [List.mem_cons, List.not_mem_nil, or_false] at h
                rcases h with rfl | rfl | rfl <;> exact Or.inl rfl
              · exact Or.inr (Or.inl ⟨rfl, freshInit_events _ _ _ _ e h⟩)
            · rw [initNode_recovery cfg env self hf hid hsc hm1 hm2 hw] at he
              rcases List.mem_append.mp he with h | h
              · simp only [List.mem_cons, List.not_mem_nil, or_false] at h
                rcases h with rfl | rfl | rfl <;> exact Or.inl rfl
              · exact Or.inr (Or.inr ⟨rfl, recoverInit_events _ _ _ _ e h⟩)

theorem startEtcd_mem (cfg : Config) (env : Env) :
    ∀ e ∈ (startEtcd cfg env).1,
      e ∈ (initNode cfg env).1 ∨ e.isComposeEvent = true := by
  intro e he
  unfold startEtcd at he
  split at he
  · exact Or.inl he
  · rcases List.mem_append.mp he with h | h
    · exact Or.inl h
    · exact Or.inr (composeServe_events cfg env e h)

theorem initNode_raftInit_count (cfg : Config) (env : Env) :
    (initNode cfg env).1.countP Event.isRaftInitEvent =
      (match (initNode cfg env).2 with
       | Except.ok _ => 1
       | Except.error _ => 0) := by
  rcases hf : Cluster.FindName cfg.cluster cfg.name with _ | self
  · rw [initNode_noname cfg env hf]; simp
  · by_cases hid : self.id = raftNone
    · rw [initNode_idNone cfg env self hf hid]; simp
    · by_cases hsc : cfg.snapCount ≤ 0
      · rw [initNode_snapCount cfg env self hf hid hsc]; simp
      · rcases hm1 : env.mkdirOk (dataDir cfg self)
        · rw [initNode_mkdirFail1 cfg env self hf hid hsc hm1]
          simp [List.countP_cons, Event.isRaftInitEvent,
            Event.isRaftStartEvent, Event.isRaftRestartEvent]
        · rcases hm2 : env.mkdirOk (pathJoin (dataDir cfg self) "snap")
          · rw [initNode_mkdirFail2 cfg env self hf hid hsc hm1 hm2]
            simp [List.countP_cons, Event.isRaftInitEvent,
              Event.isRaftStartEvent, Event.isRaftRestartEvent]
          · rcases hw : env.walExist
            · rw [initNode_fresh cfg env self hf hid hsc hm1 hm2 hw]
              rcases hr : (freshInit cfg env self
                  (pathJoin (dataDir cfg self) "wal")).2 with m | cl
              · rw [List.countP_append,
                  freshInit_raftInit_count_err cfg env self _ m hr]
                simp [List.countP_cons, Event.isRaftInitEvent,
                  Event.isRaftStartEvent, Event.isRaftRestartEvent, Except.map]
              · rw [List.countP_append,
                  freshInit_raftInit_count_ok cfg env self _ cl hr]
                simp [List.countP_cons, Event.isRaftInitEvent,
                  Event.isRaftStartEvent, Event.isRaftRestartEvent, Except.map]
            · rw [initNode_recovery cfg env self hf hid hsc hm1 hm2 hw]
              rcases hr : (recoverInit cfg env self
                  (pathJoin (dataDir cfg self) "wal")).2 with m | cl
              · rw [List.countP_append,
                  recoverInit_raftInit_count_err cfg env self _ m hr]
                simp [List.countP_cons, Event.isRaftInitEvent,
                  Event.isRaftStartEvent, Event.isRaftRestartEvent, Except.map]
              · rw [List.countP_append,
                  recoverInit_raftInit_count_ok cfg env self _ cl hr]
                simp [List.countP_cons, Event.isRaftInitEvent,
                  Event.isRaftStartEvent, Event.isRaftRestartEvent, Except.map]

theorem startEtcd_raftInit_count_ok (cfg : Config) (env : Env)
    (h : (startEtcd cfg env).2 = Except.ok ()) :
    (startEtcd cfg env).1.countP Event.isRaftInitEvent = 1 := by
  have hcount := initNode_raftInit_count cfg env
  rcases hi : (initNode cfg env).2 with m | x
  · rw [hi] at hcount
    simp [startEtcd, hi] at h
  · rw [hi] at hcount
    simp only [startEtcd, hi]
    rw [List.countP_append, hcount, composeServe_raftInit_count]

theorem startEtcd_raftInit_count_le (cfg : Config) (env : Env) :
    (startEtcd cfg env).1.countP Event.isRaftInitEvent ≤ 1 := by
  have hcount := initNode_raftInit_count cfg env
  rcases hi : (initNode cfg env).2 with m | x
  · rw [hi] at hcount
    simp only [startEtcd, hi]
    rw [hcount]
    simp
  · rw [hi] at hcount
    simp only [startEtcd, hi]
    rw [List.countP_append, hcount, composeServe_raftInit_count]

theorem setupEvent_class {e : Event} (h : e.isSetupEvent = true) :
    e.isDiscoveryEvent = false ∧ e.isRaftStartEvent = false ∧
    e.isSnapLoadEvent = false ∧ e.isWalOpenEvent = false ∧
    e.isRaftRestartEvent = false ∧ e.isServeEvent = false := by
  cases e <;> simp_all [Event.isSetupEvent, Event.isDiscoveryEvent,
    Event.isRaftStartEvent, Event.isSnapLoadEvent, Event.isWalOpenEvent,
    Event.isRaftRestartEvent, Event.isServeEvent]

theorem composeEvent_class {e : Event} (h : e.isComposeEvent = true) :
    e.isDiscoveryEvent = false ∧ e.isRaftStartEvent = false ∧
    e.isSnapLoadEvent = false ∧ e.isWalOpenEvent = false ∧
    e.isRaftRestartEvent = false ∧ e.isStoreRecoverEvent = false ∧
    e.isWalCreateEvent = false := by
  cases e <;> simp_all [Event.isComposeEvent, Event.isDiscoveryEvent,
    Event.isRaftStartEvent, Event.isSnapLoadEvent, Event.isWalOpenEvent,
    Event.isRaftRestartEvent, Event.isStoreRecoverEvent, Event.isWalCreateEvent]

theorem recoveryEvent_class {e : Event} (h : e.isRecoveryPathEvent = true) :
    e.isDiscoveryEvent = false ∧ e.isRaftStartEvent = false ∧
    e.isServeEvent = false ∧ e.isWalCreateEvent = false := by
  cases e <;> simp_all [Event.isRecoveryPathEvent, Event.isDiscoveryEvent,
    Event.isRaftStartEvent, Event.isServeEvent, Event.isWalCreateEvent]

theorem freshEvent_class {e : Event} (h : e.isFreshPathEvent = true) :
    e.isSnapLoadEvent = false ∧ e.isWalOpenEvent = false ∧
    e.isStoreRecoverEvent = false ∧ e.isRaftRestartEvent = false ∧
    e.isServeEvent = false := by
  cases e <;> simp_all [Event.isFreshPathEvent, Event.isSnapLoadEvent,
    Event.isWalOpenEvent, Event.isStoreRecoverEvent, Event.isRaftRestartEvent,
    Event.isServeEvent]

/-- Claim C1: the existence of the WAL directory is the single branch point
of startup: for every configuration and environment, if the WAL directory
exists the orchestrator never performs discovery and never invokes the
fresh-start initialization; if it does not exist the orchestrator never
loads a snapshot, never opens an existing log, and never invokes the
restart initialization; at most one consensus-engine initialization occurs
in any run, and exactly one occurs whenever `startEtcd` completes without a
fatal error. -/
theorem wal_exist_single_branch_point (cfg : Config) (env : Env) :
    (env.walExist = true →
      ∀ e ∈ (startEtcd cfg env).1,
        e.isDiscoveryEvent = false ∧ e.isRaftStartEvent = false) ∧
    (env.walExist = false →
      ∀ e ∈ (startEtcd cfg env).1,
        e.isSnapLoadEvent = false ∧ e.isWalOpenEvent = false ∧
          e.isRaftRestartEvent = false) ∧
    (startEtcd cfg env).1.countP Event.isRaftInitEvent ≤ 1 ∧
    ((startEtcd cfg env).2 = Except.ok () →
      (startEtcd cfg env).1.countP Event.isRaftInitEvent = 1) := by
  refine ⟨?_, ?_, startEtcd_raftInit_count_le cfg env,
    startEtcd_raftInit_count_ok cfg env⟩
  · intro hw e he
    rcases startEtcd_mem cfg env e he with h | h
    · rcases initNode_mem cfg env e h with hs | ⟨hwf, _⟩ | ⟨_, hr⟩
      · exact ⟨(setupEvent_class hs).1, (setupEvent_class hs).2.1⟩
      · rw [hw] at hwf; exact absurd hwf (by simp)
      · exact ⟨(recoveryEvent_class hr).1, (recoveryEvent_class hr).2.1⟩
    · exact ⟨(composeEvent_class h).1, (composeEvent_class h).2.1⟩
  · intro hw e he
    rcases startEtcd_mem cfg env e he with h | h
    · rcases initNode_mem cfg env e h with hs | ⟨_, hf⟩ | ⟨hwt, _⟩
      · exact ⟨(setupEvent_class hs).2.2.1, (setupEvent_class hs).2.2.2.1,
          (setupEvent_class hs).2.2.2.2.1⟩
      · exact ⟨(freshEvent_class hf).1, (freshEvent_class hf).2.1,
          (freshEvent_class hf).2.2.2.1⟩
      · rw [hw] at hwt; exact absurd hwt (by simp)
    · exact ⟨(composeEvent_class h).2.2.1, (composeEvent_class h).2.2.2.1,
        (composeEvent_class h).2.2.2.2.1⟩

/-- A one-member cluster used as a concrete fixture by witness theorems. -/
def memA : Member := ⟨"default", 1, "localhost:8080"⟩

/-- The concrete fixture cluster. -/
def clusterA : Cluster := ⟨[memA]⟩

/-- A concrete hard state for witness runs. -/
def hsA : HardState := ⟨2, 1, 3⟩

/-- Configuration fixture: etcd mode, data dir `d`, no discovery. -/
def cfgA : Config :=
  ⟨"default", "d", "", "", 10000, clusterA, ":7001", ["127.0.0.1:4001"],
    ProxyMode.off⟩

/-- Environment fixture: a recovery run in which the WAL directory exists,
no snapshot is present, and every collaborator call succeeds. -/
def envRecA : Env :=
  ⟨fun _ => true, true, true, Except.ok clusterA, true,
    (none, some SnapErr.noSnapshot), fun _ => true, fun _ => true,
    fun _ => Except.ok (0, hsA, []), true, true, true, fun _ => true⟩

/-- Witness for C1: on a concrete recovery run the hypotheses hold and the
conclusions are realized. -/
theorem wal_exist_single_branch_point_witness :
    (∀ e ∈ (startEtcd cfgA envRecA).1,
      e.isDiscoveryEvent = false ∧ e.isRaftStartEvent = false) ∧
    (startEtcd cfgA envRecA).1.countP Event.isRaftInitEvent = 1 :=
  ⟨(wal_exist_single_branch_point cfgA envRecA).1 rfl,
   (wal_exist_single_branch_point cfgA envRecA).2.2.2 rfl⟩

theorem list_order_of_partition {l A B : List Event} {p q : Event → Bool}
    (hsplit : l = A ++ B)
    (hA : ∀ e ∈ A, q e = false) (hB : ∀ e ∈ B, p e = false)
    (i j : Nat) (hi : i < l.length) (hj : j < l.length)
    (hpi : p (l.get ⟨i, hi⟩) = true) (hqj : q (l.get ⟨j, hj⟩) = true) :
    i < j := by
  subst hsplit
  have hiA : i < A.length := by
    by_contra hge
    push_neg at hge
    have hmem : (A ++ B).get ⟨i, hi⟩ ∈ B := by
      rw [List.get_eq_getElem, List.getElem_append_right hge]
      exact List.getElem_mem _
    rw [hB _ hmem] at hpi
    exact absurd hpi (by simp)
  have hjA : A.length ≤ j := by
    by_contra hlt
    push_neg at hlt
    have hmem : (A ++ B).get ⟨j, hj⟩ ∈ A := by
      rw [List.get_eq_getElem, List.getElem_append_left hlt]
      exact List.getElem_mem _
    rw [hA _ hmem] at hqj
    exact absurd hqj (by simp)
  omega

theorem initNode_no_serve (cfg : Config) (env : Env) :
    ∀ e ∈ (initNode cfg env).1, e.isServeEvent = false := by
  intro e h
  rcases initNode_mem cfg env e h with hs | ⟨_, hf⟩ | ⟨_, hr⟩
  · exact (setupEvent_class hs).2.2.2.2.2
  · exact (freshEvent_class hf).2.2.2.2
  · exact (recoveryEvent_class hr).2.2.1

/-- Claim C8: the bootstrap/recovery decision and the consensus-engine
initialization complete before any network endpoint event: in every trace a
raft-initialization event occurs at a strictly earlier position than every
listener/serving event; and in etcd mode the main sequence emits exactly the
`startEtcd` actions and, when `startEtcd` completes without a fatal error,
does nothing further but block forever. -/
theorem init_precedes_serving (cfg : Config) (env : Env) :
    (∀ i j (hi : i < (startEtcd cfg env).1.length)
       (hj : j < (startEtcd cfg env).1.length),
       ((startEtcd cfg env).1.get ⟨i, hi⟩).isRaftInitEvent = true →
       ((startEtcd cfg env).1.get ⟨j, hj⟩).isServeEvent = true → i < j) ∧
    (cfg.proxyMode = ProxyMode.off →
      (mainRun cfg env).1 = (startEtcd cfg env).1 ∧
      ((startEtcd cfg env).2 = Except.ok () →
        (mainRun cfg env).2 = MainOutcome.blockedForever)) := by
  constructor
  · intro i j hi hj hpi hqj
    rcases hi2 : (initNode cfg env).2 with m | x
    · exact @list_order_of_partition ((startEtcd cfg env).1)
        ((initNode cfg env).1) [] Event.isRaftInitEvent Event.isServeEvent
        (by simp [startEtcd, hi2]) (initNode_no_serve cfg env)
        (fun e he => by simp at he) i j hi hj hpi hqj
    · exact @list_order_of_partition ((startEtcd cfg env).1)
        ((initNode cfg env).1) ((composeServe cfg env).1)
        Event.isRaftInitEvent Event.isServeEvent
        (by simp [startEtcd, hi2]) (initNode_no_serve cfg env)
        (fun e he => composeEvent_not_raftInit (composeServe_events cfg env e he))
        i j hi hj hpi hqj
  · intro hpm
    constructor
    · simp [mainRun, hpm]
    · intro hok
      simp [mainRun, hpm, hok]

/-- Witness for C8: in the concrete recovery run the restart initialization
sits at trace position 6, strictly before the peer listener at position 9,
and main blocks forever. -/
theorem init_precedes_serving_witness :
    (6 : Nat) < 9 ∧ (mainRun cfgA envRecA).2 = MainOutcome.blockedForever :=
  ⟨(init_precedes_serving cfgA envRecA).1 6 9 (by decide) (by decide)
      (by decide) (by decide),
   ((init_precedes_serving cfgA envRecA).2 rfl).2 rfl⟩

theorem walReplay_ok_spec (cfg : Config) (env : Env) (self : Member)
    (w : String) (i : Int) (so : Option Snapshot) (hst : HardState)
    (ents : List Entry) (ho : env.walOpenOk i = true)
    (hr : env.walReadResult i = Except.ok (0, hst, ents)) :
    walReplay cfg env self w i so =
      ([Event.walOpen w i, Event.walReadAll,
        Event.raftRestart self.id (Cluster.IDs cfg.cluster) 10 1 so hst ents],
       Except.ok cfg.cluster) := by
  simp [walReplay, ho, hr]

theorem recoverInit_snap_spec (cfg : Config) (env : Env) (self : Member)
    (w : String) (s : Snapshot)
    (hsnap : env.snapLoadResult = (some s, none)) :
    recoverInit cfg env self w =
      (Event.snapLoad :: Event.storeRecover s.data (env.storeRecoverOk s.data)
        :: (walReplay cfg env self w s.index (some s)).1,
       (walReplay cfg env self w s.index (some s)).2) := by
  simp [recoverInit, hsnap]

/-- Claim C2: on the recovery path with a snapshot loaded at index `K`, the
WAL is opened at offset `K`, the restart initialization receives exactly
that snapshot, the replayed hard state and the entries read from offset `K`
(all of index greater than `K` under the WAL offset contract), together
with the member IDs of the locally configured cluster, and no discovery
action occurs anywhere in the trace. -/
theorem recovery_replay_exact (cfg : Config) (env : Env) (self : Member)
    (K : Int) (data : List Nat) (hst : HardState) (ents : List Entry)
    (hf : Cluster.FindName cfg.cluster cfg.name = some self)
    (hid : ¬self.id = raftNone) (hsc : ¬cfg.snapCount ≤ 0)
    (hm1 : env.mkdirOk (dataDir cfg self) = true)
    (hm2 : env.mkdirOk (pathJoin (dataDir cfg self) "snap") = true)
    (hw : env.walExist = true)
    (hsnap : env.snapLoadResult = (some ⟨K, data⟩, none))
    (hopen : env.walOpenOk K = true)
    (hread : env.walReadResult K = Except.ok (0, hst, ents))
    (hoffset : ∀ en ∈ ents, K < en.index) :
    Event.walOpen (pathJoin (dataDir cfg self) "wal") K ∈ (startEtcd cfg env).1 ∧
    Event.raftRestart self.id (Cluster.IDs cfg.cluster) 10 1
      (some ⟨K, data⟩) hst ents ∈ (startEtcd cfg env).1 ∧
    (startEtcd cfg env).1.countP Event.isRaftRestartEvent = 1 ∧
    (∀ e ∈ (startEtcd cfg env).1, e.isDiscoveryEvent = false) ∧
    (∀ i2 ids el hb so hs2 ents2,
      Event.raftRestart i2 ids el hb so hs2 ents2 ∈ (startEtcd cfg env).1 →
      i2 = self.id ∧ ids = Cluster.IDs cfg.cluster ∧ so = some ⟨K, data⟩ ∧
        hs2 = hst ∧ ents2 = ents ∧ ∀ en ∈ ents2, K < en.index) := by
  have hInit : initNode cfg env =
      ([Event.mkdir (dataDir cfg self),
        Event.mkdir (pathJoin (dataDir cfg self) "snap"),
        Event.walExistCheck (pathJoin (dataDir cfg self) "wal"),
        Event.snapLoad,
        Event.storeRecover data (env.storeRecoverOk data),
        Event.walOpen (pathJoin (dataDir cfg self) "wal") K,
        Event.walReadAll,
        Event.raftRestart self.id (Cluster.IDs cfg.cluster) 10 1
          (some ⟨K, data⟩) hst ents],
       Except.ok (self, cfg.cluster)) := by
    rw [initNode_recovery cfg env self hf hid hsc hm1 hm2 hw,
      recoverInit_snap_spec cfg env self _ ⟨K, data⟩ hsnap,
      walReplay_ok_spec cfg env self _ K (some ⟨K, data⟩) hst ents hopen hread]
    simp [Except.map]
  have ht : (startEtcd cfg env).1 =
      [Event.mkdir (dataDir cfg self),
        Event.mkdir (pathJoin (dataDir cfg self) "snap"),
        Event.walExistCheck (pathJoin (dataDir cfg self) "wal"),
        Event.snapLoad,
        Event.storeRecover data (env.storeRecoverOk data),
        Event.walOpen (pathJoin (dataDir cfg self) "wal") K,
        Event.walReadAll,
        Event.raftRestart self.id (Cluster.IDs cfg.cluster) 10 1
          (some ⟨K, data⟩) hst ents] ++ (composeServe cfg env).1 := by
    simp [startEtcd, hInit]
  refine ⟨?_, ?_, ?_, ?_, ?_⟩
  · rw [ht]; exact List.mem_append_left _ (by simp)
  · rw [ht]; exact List.mem_append_left _ (by simp)
  · rw [ht, List.countP_append,
      countP_eq_zero_of_all (fun e he =>
        (composeEvent_class (composeServe_events cfg env e he)).2.2.2.2.1)]
    simp [List.countP_cons, Event.isRaftRestartEvent]
  · intro e he
    rw [ht] at he
    rcases List.mem_append.mp he with h | h
    · simp only [List.mem_cons, List.not_mem_nil, or_false] at h
      rcases h with rfl|rfl|rfl|rfl|rfl|rfl|rfl|rfl <;> rfl
    · exact (composeEvent_class (composeServe_events cfg env e h)).1
  · intro i2 ids el hb so hs2 ents2 hmem
    rw [ht] at hmem
    rcases List.mem_append.mp hmem with h | h
    · simp only [List.mem_cons, List.not_mem_nil, or_false] at h
      rcases h with h|h|h|h|h|h|h|h
      · exact absurd h (by simp)
      · exact absurd h (by simp)
      · exact absurd h (by simp)
      · exact absurd h (by simp)
      · exact absurd h (by simp)
      · exact absurd h (by simp)
      · exact absurd h (by simp)
      · simp only [Event.raftRestart.injEq] at h
        obtain ⟨h1, h2, _, _, h5, h6, h7⟩ := h
        subst h1; subst h2; subst h5; subst h6; subst h7
        exact ⟨rfl, rfl, rfl, rfl, rfl, hoffset⟩
    · have hcc := (composeEvent_class (composeServe_events cfg env _ h)).2.2.2.2.1
      exact absurd hcc (by simp [Event.isRaftRestartEvent])

/-- A snapshot fixture at index 5. -/
def snapB : Snapshot := ⟨5, [7]⟩

/-- Environment fixture: a recovery run with a snapshot at index 5 and three
trailing WAL entries at indices 6, 7, 8. -/
def envRecB : Env :=
  ⟨fun _ => true, true, true, Except.ok clusterA, true,
    (some snapB, none), fun _ => true, fun _ => true,
    fun _ => Except.ok (0, hsA, [⟨6, 0⟩, ⟨7, 0⟩, ⟨8, 0⟩]), true, true, true,
    fun _ => true⟩

/-- Witness for C2: the concrete snapshot-at-5 recovery run restarts the
engine with exactly the three trailing entries. -/
theorem recovery_replay_exact_witness :
    Event.raftRestart memA.id (Cluster.IDs clusterA) 10 1 (some ⟨5, [7]⟩) hsA
      [⟨6, 0⟩, ⟨7, 0⟩, ⟨8, 0⟩] ∈ (startEtcd cfgA envRecB).1 ∧
    (startEtcd cfgA envRecB).1.countP Event.isRaftRestartEvent = 1 :=
  ⟨(recovery_replay_exact cfgA envRecB memA 5 [7] hsA [⟨6, 0⟩, ⟨7, 0⟩, ⟨8, 0⟩]
      rfl (by decide) (by decide) rfl rfl rfl rfl rfl rfl (by decide)).2.1,
   (recovery_replay_exact cfgA envRecB memA 5 [7] hsA [⟨6, 0⟩, ⟨7, 0⟩, ⟨8, 0⟩]
      rfl (by decide) (by decide) rfl rfl rfl rfl rfl rfl (by decide)).2.2.1⟩

/-- Classifier: the blocking `d.Discover()` call itself. -/
def Event.isDiscoverCallEvent : Event → Bool
  | Event.discover => true
  | _ => false

theorem composeEvent_not_discoverCall {e : Event}
    (h : e.isComposeEvent = true) : e.isDiscoverCallEvent = false := by
  cases e <;> simp_all [Event.isComposeEvent, Event.isDiscoverCallEvent]

theorem discoveryPhase_nopurls (cfg : Config) (env : Env) (self : Member)
    (h1 : ¬cfg.durl = "") (h2 : cfg.purls = "") :
    discoveryPhase cfg env self =
      ([], Except.error "etcd: discovery requires advertised-peer-urls") := by
  simp [discoveryPhase, h1, h2]

theorem discoveryPhase_found (cfg : Config) (env : Env) (self : Member)
    (dcl : Cluster) (h1 : ¬cfg.durl = "") (h2 : ¬cfg.purls = "")
    (h3 : env.discoveryNewOk = true)
    (h4 : env.discoverResult = Except.ok dcl) :
    discoveryPhase cfg env self =
      ([Event.discoveryNew cfg.durl self.id (cfg.name ++ "=" ++ cfg.purls),
        Event.discover], Except.ok dcl) := by
  simp [discoveryPhase, h1, h2, h3, h4]

theorem freshInit_nopurls (cfg : Config) (env : Env) (self : Member)
    (w : String) (h1 : ¬cfg.durl = "") (h2 : cfg.purls = "") :
    freshInit cfg env self w =
      ([], Except.error "etcd: discovery requires advertised-peer-urls") := by
  simp [freshInit, discoveryPhase_nopurls cfg env self h1 h2]

theorem freshInit_discovery_found (cfg : Config) (env : Env) (self : Member)
    (w : String) (dcl : Cluster) (h1 : ¬cfg.durl = "") (h2 : ¬cfg.purls = "")
    (h3 : env.discoveryNewOk = true)
    (h4 : env.discoverResult = Except.ok dcl)
    (h5 : env.walCreateOk = true) :
    freshInit cfg env self w =
      ([Event.discoveryNew cfg.durl self.id (cfg.name ++ "=" ++ cfg.purls),
        Event.discover, Event.walCreate w,
        Event.raftStart self.id (Cluster.IDs dcl) 10 1], Except.ok dcl) := by
  simp [freshInit, discoveryPhase_found cfg env self dcl h1 h2 h3 h4, h5]

/-- Claim C3: on the fresh-start path with a discovery endpoint configured,
startup fails fatally when no advertised peer URL is configured (and then
performs no discovery, no log creation and no engine initialization);
otherwise, when discovery succeeds, the blocking discovery call happens
exactly once and strictly before the log is created, and the member IDs
passed to the start initialization are those of the cluster returned by
discovery. -/
theorem fresh_discovery_behavior (cfg : Config) (env : Env) (self : Member)
    (hf : Cluster.FindName cfg.cluster cfg.name = some self)
    (hid : ¬self.id = raftNone) (hsc : ¬cfg.snapCount ≤ 0)
    (hm1 : env.mkdirOk (dataDir cfg self) = true)
    (hm2 : env.mkdirOk (pathJoin (dataDir cfg self) "snap") = true)
    (hw : env.walExist = false) (hdurl : ¬cfg.durl = "") :
    (cfg.purls = "" →
      (startEtcd cfg env).2 =
        Except.error "etcd: discovery requires advertised-peer-urls" ∧
      ∀ e ∈ (startEtcd cfg env).1, e.isDiscoveryEvent = false ∧
        e.isWalCreateEvent = false ∧ e.isRaftInitEvent = false) ∧
    (∀ dcl, ¬cfg.purls = "" → env.discoveryNewOk = true →
      env.discoverResult = Except.ok dcl → env.walCreateOk = true →
      (startEtcd cfg env).1.countP Event.isDiscoverCallEvent = 1 ∧
      (∀ i j (hi : i < (startEtcd cfg env).1.length)
         (hj : j < (startEtcd cfg env).1.length),
         ((startEtcd cfg env).1.get ⟨i, hi⟩).isDiscoverCallEvent = true →
         ((startEtcd cfg env).1.get ⟨j, hj⟩).isWalCreateEvent = true →
         i < j) ∧
      Event.raftStart self.id (Cluster.IDs dcl) 10 1 ∈ (startEtcd cfg env).1 ∧
      (∀ i2 ids el hb,
        Event.raftStart i2 ids el hb ∈ (startEtcd cfg env).1 →
        i2 = self.id ∧ ids = Cluster.IDs dcl)) := by
  constructor
  · intro hpurls
    have hInit : initNode cfg env =
        ([Event.mkdir (dataDir cfg self),
          Event.mkdir (pathJoin (dataDir cfg self) "snap"),
          Event.walExistCheck (pathJoin (dataDir cfg self) "wal")],
         Except.error "etcd: discovery requires advertised-peer-urls") := by
      rw [initNode_fresh cfg env self hf hid hsc hm1 hm2 hw,
        freshInit_nopurls cfg env self _ hdurl hpurls]
      simp [Except.map]
    have hS : startEtcd cfg env =
        ([Event.mkdir (dataDir cfg self),
          Event.mkdir (pathJoin (dataDir cfg self) "snap"),
          Event.walExistCheck (pathJoin (dataDir cfg self) "wal")],
         Except.error "etcd: discovery requires advertised-peer-urls") := by
      simp [startEtcd, hInit]
    rw [hS]
    refine ⟨rfl, ?_⟩
    intro e he
    simp only [List.mem_cons, List.not_mem_nil, or_false] at he
    rcases he with rfl | rfl | rfl <;> exact ⟨rfl, rfl, rfl⟩
  · intro dcl hpurls hdn hdr hwc
    have hInit : initNode cfg env =
        ([Event.mkdir (dataDir cfg self),
          Event.mkdir (pathJoin (dataDir cfg self) "snap"),
          Event.walExistCheck (pathJoin (dataDir cfg self) "wal"),
          Event.discoveryNew cfg.durl self.id (cfg.name ++ "=" ++ cfg.purls),
          Event.discover,
          Event.walCreate (pathJoin (dataDir cfg self) "wal"),
          Event.raftStart self.id (Cluster.IDs dcl) 10 1],
         Except.ok (self, dcl)) := by
      rw [initNode_fresh cfg env self hf hid hsc hm1 hm2 hw,
        freshInit_discovery_found cfg env self _ dcl hdurl hpurls hdn hdr hwc]
      simp [Except.map]
    have ht : (startEtcd cfg env).1 =
        [Event.mkdir (dataDir cfg self),
         Event.mkdir (pathJoin (dataDir cfg self) "snap"),
         Event.walExistCheck (pathJoin (dataDir cfg self) "wal"),
         Event.discoveryNew cfg.durl self.id (cfg.name ++ "=" ++ cfg.purls),
         Event.discover,
         Event.walCreate (pathJoin (dataDir cfg self) "wal"),
         Event.raftStart self.id (Cluster.IDs dcl) 10 1] ++
          (composeServe cfg env).1 := by
      simp [startEtcd, hInit]
    refine ⟨?_, ?_, ?_, ?_⟩
    · rw [ht, List.countP_append,
        countP_eq_zero_of_all (fun e he =>
          composeEvent_not_discoverCall (composeServe_events cfg env e he))]
      simp [List.countP_cons, Event.isDiscoverCallEvent]
    · intro i j hi hj hpi hqj
      refine @list_order_of_partition ((startEtcd cfg env).1)
        [Event.mkdir (dataDir cfg self),
         Event.mkdir (pathJoin (dataDir cfg self) "snap"),
         Event.walExistCheck (pathJoin (dataDir cfg self) "wal"),
         Event.discoveryNew cfg.durl self.id (cfg.name ++ "=" ++ cfg.purls),
         Event.discover]
        ([Event.walCreate (pathJoin (dataDir cfg self) "wal"),
          Event.raftStart self.id (Cluster.IDs dcl) 10 1] ++
          (composeServe cfg env).1)
        Event.isDiscoverCallEvent Event.isWalCreateEvent
        (by rw [ht]; simp) ?_ ?_ i j hi hj hpi hqj
      · intro e he
        simp only [List.mem_cons, List.not_mem_nil, or_false] at he
        rcases he with rfl | rfl | rfl | rfl | rfl <;> rfl
      · intro e he
        rcases List.mem_append.mp he with h | h
        · simp only [List.mem_cons, List.not_mem_nil, or_false] at h
          rcases h with rfl | rfl <;> rfl
        · exact composeEvent_not_discoverCall (composeServe_events cfg env e h)
    · rw [ht]; exact List.mem_append_left _ (by simp)
    · intro i2 ids el hb hmem
      rw [ht] at hmem
      rcases List.mem_append.mp hmem with h | h
      · simp only [List.mem_cons, List.not_mem_nil, or_false] at h
        rcases h with h|h|h|h|h|h|h
        · exact absurd h (by simp)
        · exact absurd h (by simp)
        · exact absurd h (by simp)
        · exact absurd h (by simp)
        · exact absurd h (by simp)
        · exact absurd h (by simp)
        · simp only [Event.raftStart.injEq] at h
          exact ⟨h.1, h.2.1⟩
      · have hcc := (composeEvent_class (composeServe_events cfg env _ h)).2.1
        exact absurd hcc (by simp [Event.isRaftStartEvent])

/-- A two-member cluster, the fixture result of discovery. -/
def clusterB : Cluster := ⟨[memA, ⟨"peer2", 2, "localhost:8081"⟩]⟩

/-- Configuration fixture: fresh start with discovery and advertised URLs. -/
def cfgD : Config :=
  ⟨"default", "d", "http://disc", "http://peer", 10000, clusterA, ":7001",
    ["127.0.0.1:4001"], ProxyMode.off⟩

/-- Configuration fixture: discovery configured but no advertised URLs. -/
def cfgD0 : Config :=
  ⟨"default", "d", "http://disc", "", 10000, clusterA, ":7001",
    ["127.0.0.1:4001"], ProxyMode.off⟩

/-- Environment fixture: fresh run (no WAL directory); discovery returns the
two-member cluster. -/
def envFreshD : Env :=
  ⟨fun _ => true, false, true, Except.ok clusterB, true,
    (none, some SnapErr.noSnapshot), fun _ => true, fun _ => true,
    fun _ => Except.ok (0, hsA, []), true, true, true, fun _ => true⟩

/-- Witness for C3: with no advertised URL startup fails fatally; with one,
the concrete fresh run calls discovery once and starts the engine with the
discovered member IDs. -/
theorem fresh_discovery_behavior_witness :
    (startEtcd cfgD0 envFreshD).2 =
      Except.error "etcd: discovery requires advertised-peer-urls" ∧
    (startEtcd cfgD envFreshD).1.countP Event.isDiscoverCallEvent = 1 ∧
    Event.raftStart memA.id (Cluster.IDs clusterB) 10 1
      ∈ (startEtcd cfgD envFreshD).1 :=
  ⟨((fresh_discovery_behavior cfgD0 envFreshD memA rfl (by decide) (by decide)
      rfl rfl rfl (by decide)).1 rfl).1,
   ((fresh_discovery_behavior cfgD envFreshD memA rfl (by decide) (by decide)
      rfl rfl rfl (by decide)).2 clusterB (by decide) rfl rfl rfl).1,
   ((fresh_discovery_behavior cfgD envFreshD memA rfl (by decide) (by decide)
      rfl rfl rfl (by decide)).2 clusterB (by decide) rfl rfl rfl).2.2.1⟩

/-- The recovery start offset (`index` in `main.go` lines 168-177): the
loaded snapshot's index, or zero when no snapshot is present. -/
def recoveryStartIndex (env : Env) : Int :=
  match env.snapLoadResult.1 with
  | some s => s.index
  | none => 0

theorem walReplay_badid_spec (cfg : Config) (env : Env) (self : Member)
    (w : String) (i : Int) (so : Option Snapshot) (wid : Nat)
    (hst : HardState) (ents : List Entry)
    (ho : env.walOpenOk i = true)
    (hr : env.walReadResult i = Except.ok (wid, hst, ents))
    (hwid : ¬wid = 0) :
    walReplay cfg env self w i so =
      ([Event.walOpen w i, Event.walReadAll],
       Except.error "unexpected nodeid: nodeid should always be zero") := by
  simp [walReplay, ho, hr, hwid]

theorem recoverInit_nosnap_spec (cfg : Config) (env : Env) (self : Member)
    (w : String) (h1 : env.snapLoadResult.1 = none)
    (h2 : env.snapLoadResult.2 = none ∨
      env.snapLoadResult.2 = some SnapErr.noSnapshot) :
    recoverInit cfg env self w =
      (Event.snapLoad :: (walReplay cfg env self w 0 none).1,
       (walReplay cfg env self w 0 none).2) := by
  rcases h2 with h2 | h2 <;> simp [recoverInit, h1, h2]

theorem recoverInit_withsnap_spec (cfg : Config) (env : Env) (self : Member)
    (w : String) (s : Snapshot) (h1 : env.snapLoadResult.1 = some s)
    (h2 : env.snapLoadResult.2 = none ∨
      env.snapLoadResult.2 = some SnapErr.noSnapshot) :
    recoverInit cfg env self w =
      (Event.snapLoad :: Event.storeRecover s.data (env.storeRecoverOk s.data)
        :: (walReplay cfg env self w s.index (some s)).1,
       (walReplay cfg env self w s.index (some s)).2) := by
  rcases h2 with h2 | h2 <;> simp [recoverInit, h1, h2]

theorem recoverInit_loaderr_spec (cfg : Config) (env : Env) (self : Member)
    (w : String) (m : String)
    (h2 : env.snapLoadResult.2 = some (SnapErr.other m)) :
    recoverInit cfg env self w = ([Event.snapLoad], Except.error m) := by
  simp [recoverInit, h2]

/-- Claim C5: on the recovery path, after the whole remaining log is read,
a persisted node identifier other than the zero sentinel always aborts
startup fatally, and in that run no consensus-engine initialization ever
happens — the non-zero identifier is never silently accepted. -/
theorem nonzero_persisted_id_fatal (cfg : Config) (env : Env) (self : Member)
    (wid : Nat) (hst : HardState) (ents : List Entry)
    (hf : Cluster.FindName cfg.cluster cfg.name = some self)
    (hid : ¬self.id = raftNone) (hsc : ¬cfg.snapCount ≤ 0)
    (hm1 : env.mkdirOk (dataDir cfg self) = true)
    (hm2 : env.mkdirOk (pathJoin (dataDir cfg self) "snap") = true)
    (hw : env.walExist = true)
    (hserr : env.snapLoadResult.2 = none ∨
      env.snapLoadResult.2 = some SnapErr.noSnapshot)
    (hopen : env.walOpenOk (recoveryStartIndex env) = true)
    (hread : env.walReadResult (recoveryStartIndex env) =
      Except.ok (wid, hst, ents))
    (hwid : ¬wid = 0) :
    (startEtcd cfg env).2 =
      Except.error "unexpected nodeid: nodeid should always be zero" ∧
    ∀ e ∈ (startEtcd cfg env).1, e.isRaftInitEvent = false := by
  rcases hs1 : env.snapLoadResult.1 with _ | s
  · have hK : recoveryStartIndex env = 0 := by simp [recoveryStartIndex, hs1]
    rw [hK] at hopen hread
    have hInit : initNode cfg env =
        ([Event.mkdir (dataDir cfg self),
          Event.mkdir (pathJoin (dataDir cfg self) "snap"),
          Event.walExistCheck (pathJoin (dataDir cfg self) "wal"),
          Event.snapLoad,
          Event.walOpen (pathJoin (dataDir cfg self) "wal") 0,
          Event.walReadAll],
         Except.error "unexpected nodeid: nodeid should always be zero") := by
      rw [initNode_recovery cfg env self hf hid hsc hm1 hm2 hw,
        recoverInit_nosnap_spec cfg env self _ hs1 hserr,
        walReplay_badid_spec cfg env self _ 0 none wid hst ents hopen hread hwid]
      simp [Except.map]
    have hS : startEtcd cfg env =
        ([Event.mkdir (dataDir cfg self),
          Event.mkdir (pathJoin (dataDir cfg self) "snap"),
          Event.walExistCheck (pathJoin (dataDir cfg self) "wal"),
          Event.snapLoad,
          Event.walOpen (pathJoin (dataDir cfg self) "wal") 0,
          Event.walReadAll],
         Except.error "unexpected nodeid: nodeid should always be zero") := by
      simp [startEtcd, hInit]
    rw [hS]
    refine ⟨rfl, ?_⟩
    intro e he
    simp only [List.mem_cons, List.not_mem_nil, or_false] at he
    rcases he with rfl | rfl | rfl | rfl | rfl | rfl <;> rfl
  · have hK : recoveryStartIndex env = s.index := by
      simp [recoveryStartIndex, hs1]
    rw [hK] at hopen hread
    have hInit : initNode cfg env =
        ([Event.mkdir (dataDir cfg self),
          Event.mkdir (pathJoin (dataDir cfg self) "snap"),
          Event.walExistCheck (pathJoin (dataDir cfg self) "wal"),
          Event.snapLoad,
          Event.storeRecover s.data (env.storeRecoverOk s.data),
          Event.walOpen (pathJoin (dataDir cfg self) "wal") s.index,
          Event.walReadAll],
         Except.error "unexpected nodeid: nodeid should always be zero") := by
      rw [initNode_recovery cfg env self hf hid hsc hm1 hm2 hw,
        recoverInit_withsnap_spec cfg env self _ s hs1 hserr,
        walReplay_badid_spec cfg env self _ s.index (some s) wid hst ents
          hopen hread hwid]
      simp [Except.map]
    have hS : startEtcd cfg env =
        ([Event.mkdir (dataDir cfg self),
          Event.mkdir (pathJoin (dataDir cfg self) "snap"),
          Event.walExistCheck (pathJoin (dataDir cfg self) "wal"),
          Event.snapLoad,
          Event.storeRecover s.data (env.storeRecoverOk s.data),
          Event.walOpen (pathJoin (dataDir cfg self) "wal") s.index,
          Event.walReadAll],
         Except.error "unexpected nodeid: nodeid should always be zero") := by
      simp [startEtcd, hInit]
    rw [hS]
    refine ⟨rfl, ?_⟩
    intro e he
    simp only [List.mem_cons, List.not_mem_nil, or_false] at he
    rcases he with rfl | rfl | rfl | rfl | rfl | rfl | rfl <;> rfl

/-- Environment fixture: recovery run whose WAL reports persisted node id 5. -/
def envRecBad : Env :=
  ⟨fun _ => true, true, true, Except.ok clusterA, true,
    (none, some SnapErr.noSnapshot), fun _ => true, fun _ => true,
    fun _ => Except.ok (5, hsA, []), true, true, true, fun _ => true⟩

/-- Witness for C5: the concrete run with persisted node id 5 aborts. -/
theorem nonzero_persisted_id_fatal_witness :
    (startEtcd cfgA envRecBad).2 =
      Except.error "unexpected nodeid: nodeid should always be zero" :=
  (nonzero_persisted_id_fatal cfgA envRecBad memA 5 hsA [] rfl (by decide)
    (by decide) rfl rfl rfl (Or.inr rfl) rfl rfl (by decide)).1

theorem replayEvent_not_storeRecover {e : Event}
    (h : e.isReplayEvent = true) : e.isStoreRecoverEvent = false := by
  cases e <;> simp_all [Event.isReplayEvent, Event.isStoreRecoverEvent]

theorem walReplay_opens (cfg : Config) (env : Env) (self : Member)
    (w : String) (i : Int) (so : Option Snapshot) :
    Event.walOpen w i ∈ (walReplay cfg env self w i so).1 := by
  rcases ho : env.walOpenOk i
  · simp [walReplay, ho]
  · rcases hr : env.walReadResult i with m | ⟨wid, hst, ents⟩
    · simp [walReplay, ho, hr]
    · by_cases hwid : wid = 0 <;> simp [walReplay, ho, hr, hwid]

theorem walReplay_restart_args (cfg : Config) (env : Env) (self : Member)
    (w : String) (i : Int) (so : Option Snapshot) :
    ∀ i2 ids el hb so2 hs2 ents2,
      Event.raftRestart i2 ids el hb so2 hs2 ents2 ∈
        (walReplay cfg env self w i so).1 →
      so2 = so ∧ i2 = self.id ∧ ids = Cluster.IDs cfg.cluster := by
  intro i2 ids el hb so2 hs2 ents2 hmem
  rcases ho : env.walOpenOk i
  · simp [walReplay, ho] at hmem
  · rcases hr : env.walReadResult i with m | ⟨wid, hst, ents⟩
    · simp [walReplay, ho, hr] at hmem
    · by_cases hwid : wid = 0
      · simp [walReplay, ho, hr, hwid, Event.raftRestart.injEq] at hmem
        exact ⟨hmem.2.2.2.2.1, hmem.1, hmem.2.1⟩
      · simp [walReplay, ho, hr, hwid] at hmem

theorem startEtcd_trace_split (cfg : Config) (env : Env) :
    ∃ t, (startEtcd cfg env).1 = (initNode cfg env).1 ++ t ∧
      ∀ e ∈ t, e.isComposeEvent = true := by
  unfold startEtcd
  split
  · exact ⟨[], by simp, by simp⟩
  · exact ⟨(composeServe cfg env).1, rfl, composeServe_events cfg env⟩

/-- Claim C6: on the recovery path a "no snapshot present" outcome is not an
error — startup proceeds with start offset zero, the store is never
restored, the log is opened at offset zero, and any restart initialization
in that run carries no snapshot; whereas a snapshot load error other than
"no snapshot present" aborts startup fatally with that error, before any
log open or engine initialization. -/
theorem snapshot_absent_not_error (cfg : Config) (env : Env) (self : Member)
    (hf : Cluster.FindName cfg.cluster cfg.name = some self)
    (hid : ¬self.id = raftNone) (hsc : ¬cfg.snapCount ≤ 0)
    (hm1 : env.mkdirOk (dataDir cfg self) = true)
    (hm2 : env.mkdirOk (pathJoin (dataDir cfg self) "snap") = true)
    (hw : env.walExist = true) :
    (env.snapLoadResult = (none, some SnapErr.noSnapshot) →
      Event.walOpen (pathJoin (dataDir cfg self) "wal") 0
        ∈ (startEtcd cfg env).1 ∧
      (∀ e ∈ (startEtcd cfg env).1, e.isStoreRecoverEvent = false) ∧
      (∀ i2 ids el hb so2 hs2 ents2,
        Event.raftRestart i2 ids el hb so2 hs2 ents2 ∈ (startEtcd cfg env).1 →
        so2 = none)) ∧
    (∀ m, env.snapLoadResult.2 = some (SnapErr.other m) →
      (startEtcd cfg env).2 = Except.error m ∧
      ∀ e ∈ (startEtcd cfg env).1,
        e.isWalOpenEvent = false ∧ e.isRaftInitEvent = false) := by
  constructor
  · intro hsnap
    have hs1 : env.snapLoadResult.1 = none := by rw [hsnap]
    have hs2 : env.snapLoadResult.2 = none ∨
        env.snapLoadResult.2 = some SnapErr.noSnapshot := Or.inr (by rw [hsnap])
    have hInit := initNode_recovery cfg env self hf hid hsc hm1 hm2 hw
    rw [recoverInit_nosnap_spec cfg env self _ hs1 hs2] at hInit
    obtain ⟨t, ht, htc⟩ := startEtcd_trace_split cfg env
    have hT : (startEtcd cfg env).1 =
        ([Event.mkdir (dataDir cfg self),
          Event.mkdir (pathJoin (dataDir cfg self) "snap"),
          Event.walExistCheck (pathJoin (dataDir cfg self) "wal"),
          Event.snapLoad] ++
          (walReplay cfg env self (pathJoin (dataDir cfg self) "wal") 0 none).1)
          ++ t := by
      rw [ht, hInit]; simp
    refine ⟨?_, ?_, ?_⟩
    · rw [hT]
      exact List.mem_append_left _
        (List.mem_append_right _ (walReplay_opens cfg env self _ 0 none))
    · intro e he
      rw [hT] at he
      rcases List.mem_append.mp he with h | h
      · rcases List.mem_append.mp h with h2 | h2
        · simp only [List.mem_cons, List.not_mem_nil, or_false] at h2
          rcases h2 with rfl | rfl | rfl | rfl <;> rfl
        · exact replayEvent_not_storeRecover
            (walReplay_events cfg env self _ 0 none e h2)
      · exact (composeEvent_class (htc e h)).2.2.2.2.2.1
    · intro i2 ids el hb so2 hs2 ents2 hmem
      rw [hT] at hmem
      rcases List.mem_append.mp hmem with h | h
      · rcases List.mem_append.mp h with h2 | h2
        · simp at h2
        · exact (walReplay_restart_args cfg env self _ 0 none
            i2 ids el hb so2 hs2 ents2 h2).1
      · have hcc := (composeEvent_class (htc _ h)).2.2.2.2.1
        exact absurd hcc (by simp [Event.isRaftRestartEvent])
  · intro m hserr
    have hInit : initNode cfg env =
        ([Event.mkdir (dataDir cfg self),
          Event.mkdir (pathJoin (dataDir cfg self) "snap"),
          Event.walExistCheck (pathJoin (dataDir cfg self) "wal"),
          Event.snapLoad], Except.error m) := by
      rw [initNode_recovery cfg env self hf hid hsc hm1 hm2 hw,
        recoverInit_loaderr_spec cfg env self _ m hserr]
      simp [Except.map]
    have hS : startEtcd cfg env =
        ([Event.mkdir (dataDir cfg self),
          Event.mkdir (pathJoin (dataDir cfg self) "snap"),
          Event.walExistCheck (pathJoin (dataDir cfg self) "wal"),
          Event.snapLoad], Except.error m) := by
      simp [startEtcd, hInit]
    rw [hS]
    refine ⟨rfl, ?_⟩
    intro e he
    simp only [List.mem_cons, List.not_mem_nil, or_false] at he
    rcases he with rfl | rfl | rfl | rfl <;> exact ⟨rfl, rfl⟩

/-- Environment fixture: recovery run whose snapshot load fails with an
error other than "no snapshot present". -/
def envRecErr : Env :=
  ⟨fun _ => true, true, true, Except.ok clusterA, true,
    (none, some (SnapErr.other "snap: corrupted")), fun _ => true,
    fun _ => true, fun _ => Except.ok (0, hsA, []), true, true, true,
    fun _ => true⟩

/-- Witness for C6: the snapshot-absent run opens the log at offset zero,
and the corrupted-snapshot run aborts with the load error. -/
theorem snapshot_absent_not_error_witness :
    Event.walOpen (pathJoin (dataDir cfgA memA) "wal") 0
      ∈ (startEtcd cfgA envRecA).1 ∧
    (startEtcd cfgA envRecErr).2 = Except.error "snap: corrupted" :=
  ⟨((snapshot_absent_not_error cfgA envRecA memA rfl (by decide) (by decide)
      rfl rfl rfl).1 rfl).1,
   ((snapshot_absent_not_error cfgA envRecErr memA rfl (by decide) (by decide)
      rfl rfl rfl).2 "snap: corrupted" rfl).1⟩

/-- Claim C9: when a snapshot is found on the recovery path, the outcome of
restoring the key-value store from its payload is discarded: even when the
restore fails, the run still records the failed restore attempt, still
opens the log at the snapshot's index, still restarts the consensus engine
with that snapshot, and its final outcome is exactly that of the service
composition — a snapshot payload the store cannot apply never aborts
startup. -/
theorem store_restore_result_discarded (cfg : Config) (env : Env)
    (self : Member) (s : Snapshot) (hst : HardState) (ents : List Entry)
    (hf : Cluster.FindName cfg.cluster cfg.name = some self)
    (hid : ¬self.id = raftNone) (hsc : ¬cfg.snapCount ≤ 0)
    (hm1 : env.mkdirOk (dataDir cfg self) = true)
    (hm2 : env.mkdirOk (pathJoin (dataDir cfg self) "snap") = true)
    (hw : env.walExist = true)
    (hsnap : env.snapLoadResult = (some s, none))
    (hfail : env.storeRecoverOk s.data = false)
    (hopen : env.walOpenOk s.index = true)
    (hread : env.walReadResult s.index = Except.ok (0, hst, ents)) :
    Event.storeRecover s.data false ∈ (startEtcd cfg env).1 ∧
    Event.walOpen (pathJoin (dataDir cfg self) "wal") s.index
      ∈ (startEtcd cfg env).1 ∧
    Event.raftRestart self.id (Cluster.IDs cfg.cluster) 10 1 (some s) hst ents
      ∈ (startEtcd cfg env).1 ∧
    (startEtcd cfg env).2 = (composeServe cfg env).2 := by
  have hs1 : env.snapLoadResult.1 = some s := by rw [hsnap]
  have hs2 : env.snapLoadResult.2 = none ∨
      env.snapLoadResult.2 = some SnapErr.noSnapshot := Or.inl (by rw [hsnap])
  have hInit : initNode cfg env =
      ([Event.mkdir (dataDir cfg self),
        Event.mkdir (pathJoin (dataDir cfg self) "snap"),
        Event.walExistCheck (pathJoin (dataDir cfg self) "wal"),
        Event.snapLoad,
        Event.storeRecover s.data false,
        Event.walOpen (pathJoin (dataDir cfg self) "wal") s.index,
        Event.walReadAll,
        Event.raftRestart self.id (Cluster.IDs cfg.cluster) 10 1 (some s)
          hst ents],
       Except.ok (self, cfg.cluster)) := by
    rw [initNode_recovery cfg env self hf hid hsc hm1 hm2 hw,
      recoverInit_withsnap_spec cfg env self _ s hs1 hs2,
      walReplay_ok_spec cfg env self _ s.index (some s) hst ents hopen hread,
      hfail]
    simp [Except.map]
  have ht : (startEtcd cfg env).1 =
      [Event.mkdir (dataDir cfg self),
       Event.mkdir (pathJoin (dataDir cfg self) "snap"),
       Event.walExistCheck (pathJoin (dataDir cfg self) "wal"),
       Event.snapLoad,
       Event.storeRecover s.data false,
       Event.walOpen (pathJoin (dataDir cfg self) "wal") s.index,
       Event.walReadAll,
       Event.raftRestart self.id (Cluster.IDs cfg.cluster) 10 1 (some s)
         hst ents] ++ (composeServe cfg env).1 := by
    simp [startEtcd, hInit]
  refine ⟨?_, ?_, ?_, by simp [startEtcd, hInit]⟩
  · rw [ht]; exact List.mem_append_left _ (by simp)
  · rw [ht]; exact List.mem_append_left _ (by simp)
  · rw [ht]; exact List.mem_append_left _ (by simp)

/-- Environment fixture: recovery run with a snapshot at index 5 whose
payload the store fails to apply. -/
def envRecC : Env :=
  ⟨fun _ => true, true, true, Except.ok clusterA, true,
    (some snapB, none), fun _ => false, fun _ => true,
    fun _ => Except.ok (0, hsA, [⟨6, 0⟩]), true, true, true, fun _ => true⟩

/-- Witness for C9: the failed store restore is recorded yet the engine is
still restarted from the snapshot. -/
theorem store_restore_result_discarded_witness :
    Event.storeRecover snapB.data false ∈ (startEtcd cfgA envRecC).1 ∧
    Event.raftRestart memA.id (Cluster.IDs clusterA) 10 1 (some snapB) hsA
      [⟨6, 0⟩] ∈ (startEtcd cfgA envRecC).1 :=
  ⟨(store_restore_result_discarded cfgA envRecC memA snapB hsA [⟨6, 0⟩] rfl
      (by decide) (by decide) rfl rfl rfl rfl rfl rfl rfl).1,
   (store_restore_result_discarded cfgA envRecC memA snapB hsA [⟨6, 0⟩] rfl
      (by decide) (by decide) rfl rfl rfl rfl rfl rfl rfl).2.2.1⟩

/-- Claim C10: when the configured data directory is the empty string the
data directory is defaulted to `<self.ID>_etcd_data`, derived solely from
the resolved member's numeric ID, and the root and snapshot directories are
then created under that defaulted name. -/
theorem empty_dir_defaulted (cfg : Config) (env : Env) (self : Member)
    (hf : Cluster.FindName cfg.cluster cfg.name = some self)
    (hid : ¬self.id = raftNone) (hsc : ¬cfg.snapCount ≤ 0)
    (hdir : cfg.dir = "")
    (hm1 : env.mkdirOk (dataDir cfg self) = true)
    (hm2 : env.mkdirOk (pathJoin (dataDir cfg self) "snap") = true) :
    dataDir cfg self = Nat.repr self.id ++ "_etcd_data" ∧
    (startEtcd cfg env).1.take 2 =
      [Event.mkdir (Nat.repr self.id ++ "_etcd_data"),
       Event.mkdir (pathJoin (Nat.repr self.id ++ "_etcd_data") "snap")] := by
  have hd : dataDir cfg self = Nat.repr self.id ++ "_etcd_data" := by
    simp [dataDir, hdir]
  refine ⟨hd, ?_⟩
  have h3 : ∃ r, (initNode cfg env).1 =
      [Event.mkdir (dataDir cfg self),
       Event.mkdir (pathJoin (dataDir cfg self) "snap"),
       Event.walExistCheck (pathJoin (dataDir cfg self) "wal")] ++ r := by
    rcases hw : env.walExist
    · exact ⟨_, by rw [initNode_fresh cfg env self hf hid hsc hm1 hm2 hw]⟩
    · exact ⟨_, by rw [initNode_recovery cfg env self hf hid hsc hm1 hm2 hw]⟩
  obtain ⟨r, hr⟩ := h3
  obtain ⟨t, ht, _⟩ := startEtcd_trace_split cfg env
  rw [ht, hr, hd]
  simp

/-- Configuration fixture: empty data-dir flag. -/
def cfgE : Config :=
  ⟨"default", "", "", "", 10000, clusterA, ":7001", ["127.0.0.1:4001"],
    ProxyMode.off⟩

/-- Witness for C10: with an empty data-dir flag the run creates
`1_etcd_data` and `1_etcd_data/snap`. -/
theorem empty_dir_defaulted_witness :
    dataDir cfgE memA = Nat.repr memA.id ++ "_etcd_data" ∧
    (startEtcd cfgE envRecA).1.take 2 =
      [Event.mkdir (Nat.repr memA.id ++ "_etcd_data"),
       Event.mkdir (pathJoin (Nat.repr memA.id ++ "_etcd_data") "snap")] :=
  empty_dir_defaulted cfgE envRecA memA rfl (by decide) (by decide) rfl rfl rfl

/-- Claim C7: resolving the configured node name against the configured
cluster either yields a member bearing exactly that name, or — when no
member matches, or the matched member's ID is the null sentinel — the
process terminates fatally with an empty trace, before any directory
creation or network side effect. -/
theorem resolve_member_or_abort (cfg : Config) (env : Env) :
    (∀ self, Cluster.FindName cfg.cluster cfg.name = some self →
      self.name = cfg.name) ∧
    (Cluster.FindName cfg.cluster cfg.name = none →
      (startEtcd cfg env).1 = [] ∧
      (startEtcd cfg env).2 =
        Except.error "etcd: no member with name exists") ∧
    (∀ self, Cluster.FindName cfg.cluster cfg.name = some self →
      self.id = raftNone →
      (startEtcd cfg env).1 = [] ∧
      (startEtcd cfg env).2 =
        Except.error "etcd: cannot use None as member id") := by
  refine ⟨?_, ?_, ?_⟩
  · intro self hf
    have hf2 : List.find? (fun m => m.name == cfg.name) cfg.cluster.members =
        some self := hf
    have := List.find?_some hf2
    simpa using this
  · intro hf
    have hI := initNode_noname cfg env hf
    constructor <;> simp [startEtcd, hI]
  · intro self hf hid
    have hI := initNode_idNone cfg env self hf hid
    constructor <;> simp [startEtcd, hI]

/-- Configuration fixture: a node name matching no configured member. -/
def cfgBadName : Config :=
  ⟨"nope", "d", "", "", 10000, clusterA, ":7001", ["127.0.0.1:4001"],
    ProxyMode.off⟩

/-- Configuration fixture: the matched member carries the null-sentinel ID. -/
def cfgNullId : Config :=
  ⟨"z", "d", "", "", 10000, ⟨[⟨"z", 0, "u"⟩]⟩, ":7001", ["127.0.0.1:4001"],
    ProxyMode.off⟩

/-- Witness for C7: successful resolution returns the member named
`default`; an unknown name and a null-ID member both abort with an empty
trace. -/
theorem resolve_member_or_abort_witness :
    memA.name = cfgA.name ∧
    (startEtcd cfgBadName envRecA).1 = [] ∧
    (startEtcd cfgNullId envRecA).2 =
      Except.error "etcd: cannot use None as member id" :=
  ⟨(resolve_member_or_abort cfgA envRecA).1 memA rfl,
   ((resolve_member_or_abort cfgBadName envRecA).2.1 rfl).1,
   ((resolve_member_or_abort cfgNullId envRecA).2.2 ⟨"z", 0, "u"⟩ rfl rfl).2⟩

/-- Counterexample to C4 as stated: with discovery configured and no
advertised peer URLs the startup is fatal, but only after the data
directory and the snapshot directory were created and the WAL directory
existence was checked — filesystem I/O precedes the detection. -/
theorem config_error_after_io_cex :
    (startEtcd cfgD0 envFreshD).2 =
      Except.error "etcd: discovery requires advertised-peer-urls" ∧
    (startEtcd cfgD0 envFreshD).1 =
      [Event.mkdir "d", Event.mkdir "d/snap", Event.walExistCheck "d/wal"] := by
  constructor <;> rfl

/-- Claim C4 (amended): unknown node name, null member identity and
non-positive snapshot threshold are each detected before any I/O — the
trace is empty — and are fatal; discovery requested without an advertised
peer URL is likewise fatal with immediate termination, but it is detected
on the fresh-start path only after the data and snapshot directories are
created and the WAL existence check, and nothing beyond those three
filesystem actions ever happens in such a run. -/
theorem config_errors_fatal_order (cfg : Config) (env : Env) :
    (Cluster.FindName cfg.cluster cfg.name = none →
      (startEtcd cfg env).1 = [] ∧
      (startEtcd cfg env).2 =
        Except.error "etcd: no member with name exists") ∧
    (∀ self, Cluster.FindName cfg.cluster cfg.name = some self →
      self.id = raftNone →
      (startEtcd cfg env).1 = [] ∧
      (startEtcd cfg env).2 =
        Except.error "etcd: cannot use None as member id") ∧
    (∀ self, Cluster.FindName cfg.cluster cfg.name = some self →
      ¬self.id = raftNone → cfg.snapCount ≤ 0 →
      (startEtcd cfg env).1 = [] ∧
      (startEtcd cfg env).2 =
        Except.error "etcd: snapshot-count must be greater than 0") ∧
    (∀ self, Cluster.FindName cfg.cluster cfg.name = some self →
      ¬self.id = raftNone → ¬cfg.snapCount ≤ 0 →
      env.mkdirOk (dataDir cfg self) = true →
      env.mkdirOk (pathJoin (dataDir cfg self) "snap") = true →
      env.walExist = false → ¬cfg.durl = "" → cfg.purls = "" →
      (startEtcd cfg env).2 =
        Except.error "etcd: discovery requires advertised-peer-urls" ∧
      (startEtcd cfg env).1 =
        [Event.mkdir (dataDir cfg self),
         Event.mkdir (pathJoin (dataDir cfg self) "snap"),
         Event.walExistCheck (pathJoin (dataDir cfg self) "wal")]) := by
  refine ⟨?_, ?_, ?_, ?_⟩
  · intro hf
    have hI := initNode_noname cfg env hf
    constructor <;> simp [startEtcd, hI]
  · intro self hf hid
    have hI := initNode_idNone cfg env self hf hid
    constructor <;> simp [startEtcd, hI]
  · intro self hf hid hsc
    have hI := initNode_snapCount cfg env self hf hid hsc
    constructor <;> simp [startEtcd, hI]
  · intro self hf hid hsc hm1 hm2 hw hdurl hpurls
    have hInit : initNode cfg env =
        ([Event.mkdir (dataDir cfg self),
          Event.mkdir (pathJoin (dataDir cfg self) "snap"),
          Event.walExistCheck (pathJoin (dataDir cfg self) "wal")],
         Except.error "etcd: discovery requires advertised-peer-urls") := by
      rw [initNode_fresh cfg env self hf hid hsc hm1 hm2 hw,
        freshInit_nopurls cfg env self _ hdurl hpurls]
      simp [Except.map]
    constructor <;> simp [startEtcd, hInit]

/-- Witness for C4 (amended): the unknown-name run aborts with an empty
trace, and the discovery-without-URL run aborts right after the three
filesystem actions. -/
theorem config_errors_fatal_order_witness :
    (startEtcd cfgBadName envRecA).1 = [] ∧
    (startEtcd cfgD0 envFreshD).2 =
      Except.error "etcd: discovery requires advertised-peer-urls" ∧
    (startEtcd cfgD0 envFreshD).1 =
      [Event.mkdir (dataDir cfgD0 memA),
       Event.mkdir (pathJoin (dataDir cfgD0 memA) "snap"),
       Event.walExistCheck (pathJoin (dataDir cfgD0 memA) "wal")] :=
  ⟨((config_errors_fatal_order cfgBadName envRecA).1 rfl).1,
   ((config_errors_fatal_order cfgD0 envFreshD).2.2.2 memA rfl (by decide)
      (by decide) rfl rfl rfl (by decide) rfl).1,
   ((config_errors_fatal_order cfgD0 envFreshD).2.2.2 memA rfl (by decide)
      (by decide) rfl rfl rfl (by decide) rfl).2⟩
